import Mathlib

/-!
Shallow embedding of the week-by-week marathon-plan orchestrator in
`src/app/api/generate-plan/route.ts` (the poll-driven revision, v1.3.3):
the POST (initialize), PUT (advance one week) and GET (read status)
handlers over the Redis-backed `PlanState` record.

Modelling conventions:
* Calendar dates are integer epoch-day numbers (day granularity);
  `differenceInDays` is subtraction, `addDays` is addition.
* The Redis store is modelled per request key as an `Option PlanState`
  (the value at `request:{requestId}`, `none` when absent or expired).
* The OpenAI backend is an opaque collaborator `gen : PromptInputs → GenResult`;
  `PromptInputs` records exactly the state data the prompt string
  interpolates (lines 214-273 of the source).  An `AbortError` raised by
  the 25-second abort controller is the `GenResult.aborted` outcome.
* The Resend email collaborator is recorded as the list of send attempts
  the handler makes, each tagged with whether the send succeeded
  (`emailOk`); a failed send is caught and only logged (lines 368-375).
-/

namespace MarathonPlan

/-- Request lifecycle status, the `PlanState.status` union type of the source. -/
inductive Status
  | initialized
  | in_progress
  | completed
  | error
deriving DecidableEq

/-- Goal finish time, `PlanState.goalTime` (numeric strings in the source). -/
structure GoalTime where
  hours : String
  minutes : String
  seconds : String
deriving DecidableEq

/-- The stored `PlanState` record (source lines 33-48).  `weeks` is the JS
object `Record<string,string>` as an association list from week index to
generated text, in property-insertion order. -/
structure PlanState where
  status : Status
  email : String
  raceDate : Int
  goalTime : GoalTime
  currentMileage : String
  totalWeeks : Int
  currentWeek : Nat
  weeks : List (Nat × String)
  error : Option String
  startTime : String
deriving DecidableEq

/-- JS object property write `state.weeks[weekNumber] = plan` (line 296):
replace the value at an existing key, otherwise append a new entry. -/
def weeksSet (k : Nat) (v : String) : List (Nat × String) → List (Nat × String)
  | [] => [(k, v)]
  | p :: rest => if p.1 = k then (k, v) :: rest else p :: weeksSet k v rest

/-- The keys of the `weeks` object, in insertion order. -/
def weeksKeys (l : List (Nat × String)) : List Nat := l.map Prod.fst

/-- Insertion step of the numeric-key sort used when assembling the full plan. -/
def insertByKey (p : Nat × String) : List (Nat × String) → List (Nat × String)
  | [] => [p]
  | q :: rest => if p.1 ≤ q.1 then p :: q :: rest else q :: insertByKey p rest

/-- `Object.entries(state.weeks).sort((a,b) => parseInt(a) - parseInt(b))`
(lines 300-301), as an insertion sort ascending by week index. -/
def sortByKey (l : List (Nat × String)) : List (Nat × String) :=
  l.foldr insertByKey []

/-- Lines 300-303: the full plan is the week texts sorted ascending by
numeric key, joined by a blank line. -/
def fullPlanOf (weeks : List (Nat × String)) : String :=
  String.intercalate "\n\n" ((sortByKey weeks).map Prod.snd)

/-- `calculateTotalWeeks` (lines 80-83): `Math.ceil(differenceInDays(raceDate,
startDate) / 7)`.  At day granularity `differenceInDays` is subtraction, and
for the positive divisor 7 the ceiling of `d / 7` is the floor of
`(d + 6) / 7`, i.e. `(d + 6).ediv 7`. -/
def calculateTotalWeeks (startDate raceDate : Int) : Int :=
  (raceDate - startDate + 6).ediv 7

/-- JS `Date.prototype.getDay` on an epoch-day number: 0 = Sunday;
epoch day 0 (1970-01-01) is a Thursday, so the weekday is `(d + 4) mod 7`. -/
def getDay (d : Int) : Int := (d + 4).emod 7

/-- Line 180: `(8 - today.getDay()) % 7 || 7` — days until the next Monday
strictly after today (7 when today is a Monday). -/
def daysUntilNextMonday (today : Int) : Int :=
  if (8 - getDay today).emod 7 = 0 then 7 else (8 - getDay today).emod 7

/-- Line 181: `firstMonday = addDays(today, daysUntilNextMonday)`. -/
def firstMonday (today : Int) : Int := today + daysUntilNextMonday today

/-- Line 187: `currentWeekStartDate = addDays(firstMonday, (weekNumber - 1) * 7)`. -/
def chunkStart (today : Int) (weekNumber : Nat) : Int :=
  firstMonday today + ((weekNumber : Int) - 1) * 7

/-- Lines 188-190: the final week ends on race day, every other week ends
6 days after its start (the following Sunday); there is no clipping of a
non-final week end to the race date. -/
def chunkEnd (today raceDate totalWeeks : Int) (weekNumber : Nat) : Int :=
  if (weekNumber : Int) = totalWeeks then raceDate
  else chunkStart today weekNumber + 6

/-- Lines 209-211: for the last week, re-adjust the end date to the race
date if they differ (a no-op, since lines 188-190 already chose the race
date for the last week). -/
def chunkEndAdjusted (today raceDate totalWeeks : Int) (weekNumber : Nat) : Int :=
  let e := chunkEnd today raceDate totalWeeks weekNumber
  if (weekNumber : Int) = totalWeeks ∧ e ≠ raceDate then raceDate else e

/-- Response body of the POST handler on success (lines 137-141). -/
structure InitResponse where
  message : String
  requestId : String
  totalWeeks : Int
deriving DecidableEq

/-- POST handler (lines 108-150): computes `totalWeeks` from today and the
submitted race date, builds the initial state and unconditionally writes it
to the store (there is no race-date validation).  Returns the stored state
and the response body. -/
def POST (today raceDate : Int) (goalTime : GoalTime)
    (currentMileage email requestId startTime : String) :
    PlanState × InitResponse :=
  let totalWeeks := calculateTotalWeeks today raceDate
  ({ status := .initialized
     email := email
     raceDate := raceDate
     goalTime := goalTime
     currentMileage := currentMileage
     totalWeeks := totalWeeks
     currentWeek := 0
     weeks := []
     error := none
     startTime := startTime },
   { message := "Training plan generation initialized"
     requestId := requestId
     totalWeeks := totalWeeks })

/-- The state data interpolated into the generation prompt (lines 214-273).
The stored email address is not among the prompt's inputs. -/
structure PromptInputs where
  weekNumber : Nat
  totalWeeks : Int
  raceDate : Int
  goalTime : GoalTime
  currentMileage : String
  chunkStart : Int
  chunkEnd : Int
deriving DecidableEq

/-- Outcome of one backend generation call: a successful response (whose
`choices[0]?.message?.content` may be absent, line 293), an abort raised by
the 25-second timeout controller (lines 154-155, 392), or any other failure. -/
inductive GenResult
  | ok (content : Option String)
  | aborted
  | failed (msg : String)

/-- Line 155: the abort controller fires after 25000 ms. -/
def generationTimeoutMs : Nat := 25000

/-- Line 323: the fallback recipient used when no Resend domain is configured. -/
def allowedTestEmail : String := "blake.fenwick1@gmail.com"

/-- One Resend send attempt (lines 332-350), abstracted by its recipient,
subject and the plan text embedded in the html body. -/
structure EmailMsg where
  toAddress : String
  subject : String
  fullPlan : String
deriving DecidableEq

/-- Response body of the PUT handler (lines 380-385, 392-402). -/
inductive PutResponse
  | ok (status : Status) (weekPlan : String) (currentWeek : Nat) (totalWeeks : Int)
  | timeout408 (error : String)
  | err500 (error : String)
deriving DecidableEq

/-- HTTP status code of a PUT response (200 / 408 / 500). -/
def putStatusCode : PutResponse → Nat
  | .ok _ _ _ _ => 200
  | .timeout408 _ => 408
  | .err500 _ => 500

/-- Lines 171-174: before generating, the handler marks the request
in progress with `currentWeek = weekNumber` and persists that state. -/
def putMidState (state : PlanState) (weekNumber : Nat) : PlanState :=
  { state with status := .in_progress, currentWeek := weekNumber }

/-- The prompt inputs the handler passes to the backend for a given state
and week number (lines 176-273). -/
def promptInputsOf (today : Int) (state : PlanState) (weekNumber : Nat) : PromptInputs :=
  { weekNumber := weekNumber
    totalWeeks := state.totalWeeks
    raceDate := state.raceDate
    goalTime := state.goalTime
    currentMileage := state.currentMileage
    chunkStart := chunkStart today weekNumber
    chunkEnd := chunkEndAdjusted today state.raceDate state.totalWeeks weekNumber }

/-- Result of one PUT call: the final value stored at the request key, the
response body, and the email send attempts made (tagged with success). -/
structure PutOutcome where
  stored : Option PlanState
  response : PutResponse
  emails : List (EmailMsg × Bool)
deriving DecidableEq

/-- PUT handler (lines 153-404).  Reads the stored state (`none` raises
`Request not found`, surfaced as a 500 by the catch block); persists the
mid-advance state (lines 171-174); rejects a chunk starting after the race
date (lines 204-206, also a 500, leaving the mid-advance state stored);
calls the backend; an abort becomes the 408 timeout response and any other
failure the generic 500, in both cases with no further write (lines
387-403); on success stores the week text, sets `completed` on the final
week and otherwise `in_progress` (lines 293-297), sends the assembled plan
by email exactly once when newly completed — to the verified test address
when no Resend domain is configured (lines 299-376) — persists, and
responds with `{status, weekPlan, currentWeek, totalWeeks}` (lines 378-385).
A failed email send is caught and only logged: `emailOk` affects nothing
but the recorded attempt's tag. -/
def PUT (today : Int) (gen : PromptInputs → GenResult) (isTestMode emailOk : Bool)
    (stored : Option PlanState) (weekNumber : Nat) : PutOutcome :=
  match stored with
  | none => { stored := none, response := .err500 "Request not found", emails := [] }
  | some state0 =>
    let state1 := putMidState state0 weekNumber
    if chunkStart today weekNumber > state1.raceDate then
      { stored := some state1
        response := .err500 "Week starts after race date"
        emails := [] }
    else
      match gen (promptInputsOf today state1 weekNumber) with
      | .aborted =>
        { stored := some state1
          response := .timeout408 "Generation timeout - please try again"
          emails := [] }
      | .failed msg =>
        { stored := some state1, response := .err500 msg, emails := [] }
      | .ok content =>
        let weekPlan := content.getD ""
        let state2 : PlanState :=
          { state1 with
            weeks := weeksSet weekNumber weekPlan state1.weeks
            status := if (weekNumber : Int) = state1.totalWeeks then
                Status.completed else Status.in_progress }
        let emails :=
          if state2.status = .completed then
            [({ toAddress := if isTestMode then allowedTestEmail else state2.email
                subject := "Your Marathon Training Plan is Ready!"
                fullPlan := fullPlanOf state2.weeks }, emailOk)]
          else []
        { stored := some state2
          response := .ok state2.status weekPlan weekNumber state2.totalWeeks
          emails := emails }

/-- Response body of the GET handler (lines 516-521, 560-566). -/
inductive GetResponse
  | ok (status : Status) (currentWeek : Nat) (totalWeeks : Int)
      (weeks : List (Nat × String)) (startTime : String)
  | notFound (error : String)
deriving DecidableEq

/-- HTTP status code of a GET response (200 / 404). -/
def getStatusCode : GetResponse → Nat
  | .ok _ _ _ _ _ => 200
  | .notFound _ => 404

/-- GET handler (lines 472-603), restricted to the per-request read path
(the connection self-test touches only its own scratch keys, and the
missing-`requestId` and corrupt-data branches are outside the typed model).
Returns the stored value unchanged — the handler never writes the request
key — together with the response: 404 when the key is absent or expired,
otherwise the projection `{status, currentWeek, totalWeeks, weeks,
startTime}` of the stored record (lines 560-566). -/
def GET (stored : Option PlanState) : Option PlanState × GetResponse :=
  (stored,
   match stored with
   | none => .notFound "Request not found"
   | some s => .ok s.status s.currentWeek s.totalWeeks s.weeks s.startTime)

/-- A backend that always answers with the given text. -/
def genSay (t : String) : PromptInputs → GenResult := fun _ => .ok (some t)

/-- A backend that always fails with the given message. -/
def genFail (m : String) : PromptInputs → GenResult := fun _ => .failed m

/-- A backend whose call is always aborted by the timeout. -/
def genAbort : PromptInputs → GenResult := fun _ => .aborted

/-- Concrete goal time used by the concrete example states. -/
def exGoal : GoalTime := { hours := "3", minutes := "30", seconds := "0" }

/-- A completed three-week request (race on epoch day 21). -/
def exCompleted : PlanState :=
  { status := .completed
    email := "runner@example.com"
    raceDate := 21
    goalTime := exGoal
    currentMileage := "20"
    totalWeeks := 3
    currentWeek := 3
    weeks := [(1, "A"), (2, "B"), (3, "C")]
    error := none
    startTime := "t0" }

/-- The same request part-way through: week 1 of 3 generated. -/
def exAfterWeek1 : PlanState :=
  { exCompleted with status := .in_progress, currentWeek := 1, weeks := [(1, "W1")] }

/-- A stored state carrying a recorded error message. -/
def exErrState : PlanState := { exCompleted with error := some "boom" }

/-- A freshly initialized request: POST on epoch day 0 (a Thursday) with
race day 21, giving three total weeks. -/
def s0post : PlanState :=
  (POST 0 21 exGoal "20" "runner@example.com" "rid" "t0").1

/-- A one-week request about to generate its only week. -/
def exInit1 : PlanState :=
  { status := .initialized
    email := "runner@example.com"
    raceDate := 7
    goalTime := exGoal
    currentMileage := "20"
    totalWeeks := 1
    currentWeek := 0
    weeks := []
    error := none
    startTime := "t0" }

/-! Helper lemmas about the embedded operations. -/

theorem putMidState_status (s : PlanState) (w : Nat) :
    (putMidState s w).status = .in_progress := rfl

theorem putMidState_currentWeek (s : PlanState) (w : Nat) :
    (putMidState s w).currentWeek = w := rfl

theorem putMidState_raceDate (s : PlanState) (w : Nat) :
    (putMidState s w).raceDate = s.raceDate := rfl

theorem putMidState_totalWeeks (s : PlanState) (w : Nat) :
    (putMidState s w).totalWeeks = s.totalWeeks := rfl

theorem putMidState_weeks (s : PlanState) (w : Nat) :
    (putMidState s w).weeks = s.weeks := rfl

theorem putMidState_error (s : PlanState) (w : Nat) :
    (putMidState s w).error = s.error := rfl

theorem putMidState_email (s : PlanState) (w : Nat) :
    (putMidState s w).email = s.email := rfl

theorem weeksSet_not_mem (k : Nat) (v : String) :
    ∀ l : List (Nat × String), k ∉ weeksKeys l → weeksSet k v l = l ++ [(k, v)]
  | [], _ => rfl
  | p :: rest, h => by
    have h1 : ¬ (p.1 = k) := by
      intro e
      exact h (by simp [weeksKeys, e])
    have h2 : k ∉ weeksKeys rest := by
      intro m
      exact h (by simp [weeksKeys] at m ⊢; exact Or.inr m)
    simp [weeksSet, h1, weeksSet_not_mem k v rest h2]

theorem mem_weeksKeys_weeksSet (k : Nat) (v : String) (j : Nat) :
    ∀ l : List (Nat × String),
      (j ∈ weeksKeys (weeksSet k v l) ↔ j ∈ weeksKeys l ∨ j = k)
  | [] => by simp [weeksSet, weeksKeys]
  | p :: rest => by
    by_cases hp : p.1 = k
    · simp [weeksSet, hp, weeksKeys]
      tauto
    · simp only [weeksSet, if_neg hp, weeksKeys, List.map_cons, List.mem_cons]
      have := mem_weeksKeys_weeksSet k v j rest
      simp only [weeksKeys] at this
      rw [this]
      tauto

theorem insertByKey_head_le (p : Nat × String) (l : List (Nat × String))
    (h : ∀ q ∈ l, p.1 ≤ q.1) : insertByKey p l = p :: l := by
  cases l with
  | nil => rfl
  | cons q rest => simp [insertByKey, h q (by simp)]

theorem sortByKey_of_pairwise :
    ∀ l : List (Nat × String), l.Pairwise (fun p q => p.1 ≤ q.1) → sortByKey l = l
  | [], _ => rfl
  | p :: rest, h => by
    have hr : sortByKey rest = rest :=
      sortByKey_of_pairwise rest (List.Pairwise.of_cons h)
    have hhead : ∀ q ∈ rest, p.1 ≤ q.1 := (List.pairwise_cons.mp h).1
    show insertByKey p (List.foldr insertByKey [] rest) = p :: rest
    rw [show List.foldr insertByKey [] rest = sortByKey rest from rfl, hr]
    exact insertByKey_head_le p rest hhead

theorem ediv7_spec (x : Int) :
    7 * (x.ediv 7) + x.emod 7 = x ∧ 0 ≤ x.emod 7 ∧ x.emod 7 < 7 :=
  ⟨Int.ediv_add_emod x 7, Int.emod_nonneg x (by norm_num),
   Int.emod_lt_of_pos x (by norm_num)⟩

theorem calculateTotalWeeks_lt_one_iff (t rd : Int) :
    calculateTotalWeeks t rd < 1 ↔ rd ≤ t := by
  unfold calculateTotalWeeks
  have h := ediv7_spec (rd - t + 6)
  omega

theorem daysUntilNextMonday_bounds (t : Int) :
    1 ≤ daysUntilNextMonday t ∧ daysUntilNextMonday t ≤ 7 := by
  unfold daysUntilNextMonday
  have h := ediv7_spec (8 - getDay t)
  split <;> omega

theorem pairwise_le_range' : ∀ (n s : Nat), (List.range' s n).Pairwise (· ≤ ·)
  | 0, _ => by simp
  | n + 1, s => by
    rw [List.range'_succ]
    refine List.Pairwise.cons ?_ (pairwise_le_range' n (s + 1))
    intro m hm
    have := List.mem_range'_1.mp hm
    omega

theorem PUT_ok_eq (today : Int) (gen : PromptInputs → GenResult) (tm eok : Bool)
    (s : PlanState) (w : Nat) (c : Option String)
    (hgen : gen (promptInputsOf today (putMidState s w) w) = .ok c)
    (hdate : chunkStart today w ≤ s.raceDate) :
    PUT today gen tm eok (some s) w =
      { stored := some { putMidState s w with
          weeks := weeksSet w (c.getD "") s.weeks
          status := if (w : Int) = s.totalWeeks then Status.completed
            else Status.in_progress }
        response := .ok
          (if (w : Int) = s.totalWeeks then Status.completed else Status.in_progress)
          (c.getD "") w s.totalWeeks
        emails := if (if (w : Int) = s.totalWeeks then Status.completed
            else Status.in_progress) = Status.completed then
            [({ toAddress := if tm then allowedTestEmail else s.email
                subject := "Your Marathon Training Plan is Ready!"
                fullPlan := fullPlanOf (weeksSet w (c.getD "") s.weeks) }, eok)]
          else [] } := by
  simp only [PUT, putMidState_raceDate, putMidState_totalWeeks, putMidState_weeks,
    putMidState_email, if_neg (not_lt.mpr hdate), hgen]

/-! Theorems settling the claims. -/

/-- C1 counterexample: the claim says `advanceWeek` on a terminal
(`completed`) state is rejected without mutation and the current status is
reported.  On the code, calling PUT with week 1 on a completed three-week
request overwrites week 1, stores `in_progress` with `currentWeek = 1`, and
responds with a success body, not the current status. -/
theorem advanceWeek_terminal_not_rejected_cex :
    (PUT 0 (genSay "NEW") true true (some exCompleted) 1).stored ≠ some exCompleted
    ∧ (PUT 0 (genSay "NEW") true true (some exCompleted) 1).stored
        = some { exCompleted with
                 status := .in_progress
                 currentWeek := 1
                 weeks := [(1, "NEW"), (2, "B"), (3, "C")] }
    ∧ (PUT 0 (genSay "NEW") true true (some exCompleted) 1).response
        = .ok .in_progress "NEW" 1 3 := by decide

/-- C1 amended: the PUT handler performs no terminal-status and no
week-ordering validation.  For every stored state — terminal status
included — and every week number whose chunk start is on or before the race
date, a successful generation mutates the stored state (week text written,
`currentWeek := weekNumber`, status recomputed) and returns a success
response; the only rejections are a missing request and a chunk starting
after the race date. -/
theorem advanceWeek_no_terminal_or_order_check
    (today : Int) (tm eok : Bool) (s : PlanState) (w : Nat) (t : String)
    (gen : PromptInputs → GenResult)
    (hterm : s.status = .completed ∨ s.status = .error)
    (hgen : gen (promptInputsOf today (putMidState s w) w) = .ok (some t))
    (hdate : chunkStart today w ≤ s.raceDate) :
    (PUT today gen tm eok (some s) w).stored
      = some { putMidState s w with
               weeks := weeksSet w t s.weeks
               status := if (w : Int) = s.totalWeeks then .completed else .in_progress }
    ∧ (PUT today gen tm eok (some s) w).response
      = .ok (if (w : Int) = s.totalWeeks then .completed else .in_progress) t w s.totalWeeks
    ∧ (putMidState s w).currentWeek = w := by
  simp only [PUT, putMidState_raceDate, if_neg (not_lt.mpr hdate), hgen]
  refine ⟨?_, ?_, ?_⟩ <;> first | rfl | trivial

/-- Witness for C1 amended: the completed three-week request is mutated by
a week-1 PUT call. -/
theorem advanceWeek_no_terminal_or_order_check_witness :
    (PUT 0 (genSay "NEW") true true (some exCompleted) 1).stored
      = some { putMidState exCompleted 1 with
               weeks := weeksSet 1 "NEW" exCompleted.weeks
               status := if (1 : Int) = exCompleted.totalWeeks then .completed
                 else .in_progress }
    ∧ (PUT 0 (genSay "NEW") true true (some exCompleted) 1).response
      = .ok (if (1 : Int) = exCompleted.totalWeeks then .completed else .in_progress)
          "NEW" 1 exCompleted.totalWeeks
    ∧ (putMidState exCompleted 1).currentWeek = 1 :=
  advanceWeek_no_terminal_or_order_check 0 true true exCompleted 1 "NEW" (genSay "NEW")
    (Or.inl rfl) rfl (by decide)

/-- C3 counterexample: the claim says a backend failure on week 2 of 3
leaves `status = error` with a recorded message and `currentWeek = 1`.  On
the code, the stored state after the failure is the mid-advance write:
`status = in_progress`, `currentWeek = 2`, `error = null`. -/
theorem advanceWeek_failure_state_cex :
    (PUT 0 (genFail "backend down") true true (some exAfterWeek1) 2).stored
      = some { exAfterWeek1 with status := .in_progress, currentWeek := 2 }
    ∧ ({ exAfterWeek1 with status := .in_progress, currentWeek := 2 } : PlanState).status
        ≠ .error
    ∧ ({ exAfterWeek1 with status := .in_progress, currentWeek := 2 } : PlanState).error
        = none
    ∧ ({ exAfterWeek1 with status := .in_progress, currentWeek := 2 } : PlanState).currentWeek
        ≠ 1 := by decide

/-- C3 amended: on a backend failure the handler returns the error response
without persisting any error: the stored state remains the mid-advance
write (`status = in_progress`, `currentWeek` = the attempted week number,
`error` unchanged at null), the weeks map still holds only the previously
completed weeks, and no email is sent. -/
theorem advanceWeek_failure_keeps_midstate
    (today : Int) (tm eok : Bool) (s : PlanState) (w : Nat) (msg : String)
    (gen : PromptInputs → GenResult)
    (hgen : gen (promptInputsOf today (putMidState s w) w) = .failed msg)
    (hdate : chunkStart today w ≤ s.raceDate) :
    (PUT today gen tm eok (some s) w).stored = some (putMidState s w)
    ∧ (putMidState s w).status = .in_progress
    ∧ (putMidState s w).currentWeek = w
    ∧ (putMidState s w).weeks = s.weeks
    ∧ (putMidState s w).error = s.error
    ∧ (PUT today gen tm eok (some s) w).emails = []
    ∧ (PUT today gen tm eok (some s) w).response = .err500 msg := by
  simp only [PUT, putMidState_raceDate, if_neg (not_lt.mpr hdate), hgen]
  refine ⟨?_, ?_, ?_, ?_, ?_, ?_, ?_⟩ <;> first | rfl | trivial

/-- Witness for C3 amended: backend failure on week 2 of the three-week
request. -/
theorem advanceWeek_failure_keeps_midstate_witness :
    (PUT 0 (genFail "backend down") true true (some exAfterWeek1) 2).stored
      = some (putMidState exAfterWeek1 2)
    ∧ (putMidState exAfterWeek1 2).status = .in_progress
    ∧ (putMidState exAfterWeek1 2).currentWeek = 2
    ∧ (putMidState exAfterWeek1 2).weeks = exAfterWeek1.weeks
    ∧ (putMidState exAfterWeek1 2).error = exAfterWeek1.error
    ∧ (PUT 0 (genFail "backend down") true true (some exAfterWeek1) 2).emails = []
    ∧ (PUT 0 (genFail "backend down") true true (some exAfterWeek1) 2).response
        = .err500 "backend down" :=
  advanceWeek_failure_keeps_midstate 0 true true exAfterWeek1 2 "backend down"
    (genFail "backend down") rfl (by decide)

/-- C4 counterexample: the claim says a race date not strictly after today
is rejected with nothing written.  On the code, POST with `raceDate =
today` still writes an initialized state, and that state has
`totalWeeks = 0 < 1`. -/
theorem initialize_accepts_past_raceDate_cex :
    ((POST 0 0 exGoal "20" "runner@example.com" "rid" "t0").1).totalWeeks = 0
    ∧ ((POST 0 0 exGoal "20" "runner@example.com" "rid" "t0").1).status = .initialized
    ∧ ¬ (1 ≤ ((POST 0 0 exGoal "20" "runner@example.com" "rid" "t0").1).totalWeeks) := by
  decide

/-- C4 amended: POST performs no race-date validation and always writes an
initialized state whose `totalWeeks` is `calculateTotalWeeks today
raceDate`; that value is below 1 exactly when the race date is not strictly
after today. -/
theorem initialize_always_writes
    (today raceDate : Int) (g : GoalTime) (cm em rid st : String) :
    ((POST today raceDate g cm em rid st).1).status = .initialized
    ∧ ((POST today raceDate g cm em rid st).1).totalWeeks
        = calculateTotalWeeks today raceDate
    ∧ (((POST today raceDate g cm em rid st).1).totalWeeks < 1 ↔ raceDate ≤ today) := by
  refine ⟨rfl, rfl, ?_⟩
  show calculateTotalWeeks today raceDate < 1 ↔ raceDate ≤ today
  exact calculateTotalWeeks_lt_one_iff today raceDate

/-- C5 counterexample: with the reference date on epoch day 0 (a Thursday)
and the race on day 8, `totalWeeks = 2`, but the week-1 chunk starts on day
4 — the next Monday — not on the reference date as the claim states, and
its end (day 10) is not clipped to the race date, so `chunkEnd ≤ raceDate`
fails for a non-final week. -/
theorem weekPlanner_chunk_dates_cex :
    calculateTotalWeeks 0 8 = 2
    ∧ chunkStart 0 1 ≠ 0 + ((1 : Int) - 1) * 7
    ∧ chunkStart 0 1 = 4
    ∧ chunkEnd 0 8 2 1 = 10
    ∧ ¬ (chunkEnd 0 8 2 1 ≤ 8) := by decide

/-- C5 amended: `totalWeeks = ceil(daysBetween/7) ≥ 1` does hold for
`raceDate > referenceDate`, but the chunks are anchored on the next Monday
strictly after the reference date (1–7 days later), not on the reference
date itself: `chunkStart = referenceDate + daysUntilNextMonday + (w-1)*7`,
and `chunkEnd` is the race date exactly for `w = totalWeeks` and otherwise
`chunkStart + 6` with no clipping to the race date. -/
theorem weekPlanner_chunk_dates
    (ref rd : Int) (w : Nat)
    (hrace : ref < rd) (hw : 1 ≤ w) :
    1 ≤ calculateTotalWeeks ref rd
    ∧ chunkStart ref w = ref + daysUntilNextMonday ref + ((w : Int) - 1) * 7
    ∧ 1 ≤ daysUntilNextMonday ref
    ∧ daysUntilNextMonday ref ≤ 7
    ∧ ((w : Int) = calculateTotalWeeks ref rd →
        chunkEnd ref rd (calculateTotalWeeks ref rd) w = rd)
    ∧ ((w : Int) ≠ calculateTotalWeeks ref rd →
        chunkEnd ref rd (calculateTotalWeeks ref rd) w = chunkStart ref w + 6) := by
  have hb := daysUntilNextMonday_bounds ref
  refine ⟨?_, ?_, hb.1, hb.2, ?_, ?_⟩
  · have := calculateTotalWeeks_lt_one_iff ref rd
    omega
  · unfold chunkStart firstMonday
    ring
  · intro hfin
    unfold chunkEnd
    rw [if_pos hfin]
  · intro hfin
    unfold chunkEnd
    rw [if_neg hfin]

/-- Witness for C5 amended: reference day 0, race day 21, final week 3. -/
theorem weekPlanner_chunk_dates_witness :
    1 ≤ calculateTotalWeeks 0 21
    ∧ chunkStart 0 3 = 0 + daysUntilNextMonday 0 + ((3 : Int) - 1) * 7
    ∧ 1 ≤ daysUntilNextMonday 0
    ∧ daysUntilNextMonday 0 ≤ 7
    ∧ ((3 : Int) = calculateTotalWeeks 0 21 →
        chunkEnd 0 21 (calculateTotalWeeks 0 21) 3 = 21)
    ∧ ((3 : Int) ≠ calculateTotalWeeks 0 21 →
        chunkEnd 0 21 (calculateTotalWeeks 0 21) 3 = chunkStart 0 3 + 6) :=
  weekPlanner_chunk_dates 0 21 3 (by decide) (by decide)

/-- C7 counterexample: two stored states that differ only in the `error`
field produce identical GET responses, so the projection cannot include the
error field when present — the response body never carries `error`. -/
theorem getStatus_drops_error_field_cex :
    exErrState.error = some "boom"
    ∧ ({ exErrState with error := none } : PlanState).error = none
    ∧ (GET (some exErrState)).2 = (GET (some { exErrState with error := none })).2 := by
  decide

/-- C7 amended: GET leaves the stored record unchanged; it answers 404
`Request not found` when the key is absent or expired, and otherwise
returns exactly the projection `{status, currentWeek, totalWeeks, weeks,
startTime}` — the `error` field is never included, even when present. -/
theorem getStatus_projection (stored : Option PlanState) :
    (GET stored).1 = stored
    ∧ (stored = none →
        (GET stored).2 = .notFound "Request not found"
        ∧ getStatusCode (GET stored).2 = 404)
    ∧ (∀ s, stored = some s →
        (GET stored).2 = .ok s.status s.currentWeek s.totalWeeks s.weeks s.startTime
        ∧ getStatusCode (GET stored).2 = 200) := by
  refine ⟨rfl, ?_, ?_⟩
  · rintro rfl
    exact ⟨rfl, rfl⟩
  · rintro s rfl
    exact ⟨rfl, rfl⟩

/-- Witness for C7 amended: a present and an absent request. -/
theorem getStatus_projection_witness :
    (GET (some exErrState)).1 = some exErrState
    ∧ (GET (some exErrState)).2
        = .ok exErrState.status exErrState.currentWeek exErrState.totalWeeks
            exErrState.weeks exErrState.startTime
    ∧ (GET (none : Option PlanState)).2 = .notFound "Request not found" :=
  ⟨(getStatus_projection (some exErrState)).1,
   ((getStatus_projection (some exErrState)).2.2 exErrState rfl).1,
   ((getStatus_projection none).2.1 rfl).1⟩

/-- C2: if the stored request holds exactly weeks `1..w-1` (in ascending
key order, as in-order advances produce) and generation succeeds for week
`w`, then for `w = totalWeeks` the stored state gains `weeks[w] = text`
with `currentWeek = w` and `status = completed`, and the email collaborator
is invoked exactly once with the texts of weeks `1..totalWeeks` in
ascending numeric order joined by a blank line; for `w ≠ totalWeeks` the
status becomes `in_progress` and no email is sent. -/
theorem advanceWeek_success_completion
    (today : Int) (tm eok : Bool) (s : PlanState) (w : Nat) (t : String)
    (gen : PromptInputs → GenResult)
    (hgen : gen (promptInputsOf today (putMidState s w) w) = .ok (some t))
    (hkeys : weeksKeys s.weeks = List.range' 1 (w - 1))
    (hw : 1 ≤ w)
    (hdate : chunkStart today w ≤ s.raceDate) :
    ((w : Int) = s.totalWeeks →
      (PUT today gen tm eok (some s) w).stored
        = some { putMidState s w with
                 weeks := s.weeks ++ [(w, t)]
                 status := .completed }
      ∧ weeksKeys (s.weeks ++ [(w, t)]) = List.range' 1 w
      ∧ (putMidState s w).currentWeek = w
      ∧ (PUT today gen tm eok (some s) w).emails.map (fun e => e.1.fullPlan)
          = [String.intercalate "\n\n" ((s.weeks ++ [(w, t)]).map Prod.snd)])
    ∧ ((w : Int) ≠ s.totalWeeks →
      (PUT today gen tm eok (some s) w).stored
        = some { putMidState s w with
                 weeks := s.weeks ++ [(w, t)]
                 status := .in_progress }
      ∧ (PUT today gen tm eok (some s) w).emails = []) := by
  have hnotmem : w ∉ weeksKeys s.weeks := by
    rw [hkeys]
    intro hmem
    have := List.mem_range'_1.mp hmem
    omega
  have hset : weeksSet w t s.weeks = s.weeks ++ [(w, t)] :=
    weeksSet_not_mem w t s.weeks hnotmem
  have hkeys2 : weeksKeys (s.weeks ++ [(w, t)]) = List.range' 1 w := by
    have h1 : weeksKeys (s.weeks ++ [(w, t)]) = weeksKeys s.weeks ++ [w] := by
      simp [weeksKeys]
    have h2 : List.range' 1 w = List.range' 1 ((w - 1) + 1) := by
      congr 1
      omega
    rw [h1, hkeys, h2, List.range'_1_concat]
    congr 2
    omega
  have hpw : (s.weeks ++ [(w, t)]).Pairwise (fun p q => p.1 ≤ q.1) := by
    have hmap : ((s.weeks ++ [(w, t)]).map Prod.fst).Pairwise (· ≤ ·) := by
      show (weeksKeys (s.weeks ++ [(w, t)])).Pairwise (· ≤ ·)
      rw [hkeys2]
      exact pairwise_le_range' w 1
    exact List.pairwise_map.mp hmap
  have hfull : fullPlanOf (s.weeks ++ [(w, t)])
      = String.intercalate "\n\n" ((s.weeks ++ [(w, t)]).map Prod.snd) := by
    unfold fullPlanOf
    rw [sortByKey_of_pairwise _ hpw]
  rw [PUT_ok_eq today gen tm eok s w (some t) hgen hdate]
  simp only [Option.getD_some, hset]
  constructor
  · intro hfin
    rw [if_pos hfin]
    refine ⟨rfl, hkeys2, rfl, ?_⟩
    simp [hfull]
  · intro hfin
    rw [if_neg hfin]
    exact ⟨rfl, by simp⟩

/-- Witness for C2: a one-week request generates its only week, completes,
and the single email carries that week's text. -/
theorem advanceWeek_success_completion_witness :
    (((1 : Nat) : Int) = exInit1.totalWeeks →
      (PUT 0 (genSay "W1") true true (some exInit1) 1).stored
        = some { putMidState exInit1 1 with
                 weeks := exInit1.weeks ++ [(1, "W1")]
                 status := .completed }
      ∧ weeksKeys (exInit1.weeks ++ [(1, "W1")]) = List.range' 1 1
      ∧ (putMidState exInit1 1).currentWeek = 1
      ∧ (PUT 0 (genSay "W1") true true (some exInit1) 1).emails.map
          (fun e => e.1.fullPlan)
          = [String.intercalate "\n\n" ((exInit1.weeks ++ [(1, "W1")]).map Prod.snd)])
    ∧ (((1 : Nat) : Int) ≠ exInit1.totalWeeks →
      (PUT 0 (genSay "W1") true true (some exInit1) 1).stored
        = some { putMidState exInit1 1 with
                 weeks := exInit1.weeks ++ [(1, "W1")]
                 status := .in_progress }
      ∧ (PUT 0 (genSay "W1") true true (some exInit1) 1).emails = []) :=
  advanceWeek_success_completion 0 true true exInit1 1 "W1" (genSay "W1")
    rfl (by decide) (by decide) (by decide)

/-- C6 counterexample: the claim includes states persisted mid-advance.  A
real trace — POST, then PUT for week 1 whose generation fails — leaves
stored a state with `status = in_progress` and `currentWeek = 1` whose
weeks map is empty, so the keys are not `{1, ..., currentWeek}`. -/
theorem weeks_keys_gap_cex :
    (PUT 0 (genFail "backend down") true true (some s0post) 1).stored
      = some (putMidState s0post 1)
    ∧ (putMidState s0post 1).status = .in_progress
    ∧ (putMidState s0post 1).currentWeek = 1
    ∧ weeksKeys (putMidState s0post 1).weeks = []
    ∧ ¬ (1 ∈ weeksKeys (putMidState s0post 1).weeks) := by decide

/-- C6 amended: under in-order calls (`weekNumber = currentWeek + 1`) the
invariant holds after each successful advance — if the keys of `weeks` are
exactly `{1, ..., currentWeek}` before the call, they are exactly
`{1, ..., currentWeek}` in the state stored by a successful advance — but
the state persisted mid-advance has keys exactly `{1, ..., currentWeek-1}`
(a gap at `currentWeek`), and out-of-order week numbers are not rejected. -/
theorem weeks_keys_invariant_step
    (today : Int) (tm eok : Bool) (s : PlanState) (t : String)
    (gen : PromptInputs → GenResult)
    (hkeys : ∀ k, k ∈ weeksKeys s.weeks ↔ (1 ≤ k ∧ k ≤ s.currentWeek))
    (hgen : gen (promptInputsOf today (putMidState s (s.currentWeek + 1))
        (s.currentWeek + 1)) = .ok (some t))
    (hdate : chunkStart today (s.currentWeek + 1) ≤ s.raceDate) :
    (∀ k, k ∈ weeksKeys (putMidState s (s.currentWeek + 1)).weeks
        ↔ (1 ≤ k ∧ k ≤ (putMidState s (s.currentWeek + 1)).currentWeek - 1))
    ∧ (∃ s2, (PUT today gen tm eok (some s) (s.currentWeek + 1)).stored = some s2
        ∧ s2.currentWeek = s.currentWeek + 1
        ∧ (∀ k, k ∈ weeksKeys s2.weeks ↔ (1 ≤ k ∧ k ≤ s2.currentWeek))) := by
  constructor
  · intro k
    rw [putMidState_weeks, putMidState_currentWeek, hkeys k]
    omega
  · rw [PUT_ok_eq today gen tm eok s (s.currentWeek + 1) (some t) hgen hdate]
    refine ⟨_, rfl, rfl, ?_⟩
    intro k
    show k ∈ weeksKeys (weeksSet (s.currentWeek + 1) ((some t).getD "") s.weeks) ↔ _
    rw [mem_weeksKeys_weeksSet, hkeys k, putMidState_currentWeek]
    omega

/-- Witness for C6 amended: the freshly initialized three-week request
advances in order through week 1. -/
theorem weeks_keys_invariant_step_witness :
    (∀ k, k ∈ weeksKeys (putMidState s0post (s0post.currentWeek + 1)).weeks
        ↔ (1 ≤ k ∧ k ≤ (putMidState s0post (s0post.currentWeek + 1)).currentWeek - 1))
    ∧ (∃ s2, (PUT 0 (genSay "W1") true true (some s0post)
          (s0post.currentWeek + 1)).stored = some s2
        ∧ s2.currentWeek = s0post.currentWeek + 1
        ∧ (∀ k, k ∈ weeksKeys s2.weeks ↔ (1 ≤ k ∧ k ≤ s2.currentWeek))) :=
  weeks_keys_invariant_step 0 true true s0post "W1" (genSay "W1")
    (by intro k; simp [s0post, POST, weeksKeys]; omega) rfl (by decide)

/-- C8: a failed email send is caught and only logged — the stored state,
the response body, the attempted message content, and the subsequent GET
view are identical whether the send succeeds or fails; and when the final
week succeeds, the stored state has `status = completed` with the week text
written, for either send outcome. -/
theorem email_failure_frame
    (today : Int) (tm : Bool) (stored : Option PlanState) (s : PlanState) (w : Nat)
    (c : Option String) (gen : PromptInputs → GenResult) :
    ((PUT today gen tm true stored w).stored = (PUT today gen tm false stored w).stored)
    ∧ ((PUT today gen tm true stored w).response
        = (PUT today gen tm false stored w).response)
    ∧ ((PUT today gen tm true stored w).emails.map Prod.fst
        = (PUT today gen tm false stored w).emails.map Prod.fst)
    ∧ ((GET ((PUT today gen tm false stored w).stored)).2
        = (GET ((PUT today gen tm true stored w).stored)).2)
    ∧ (stored = some s →
       gen (promptInputsOf today (putMidState s w) w) = .ok c →
       chunkStart today w ≤ s.raceDate →
       (w : Int) = s.totalWeeks →
       ∀ eok : Bool, ∃ s2, (PUT today gen tm eok (some s) w).stored = some s2
          ∧ s2.status = .completed
          ∧ s2.weeks = weeksSet w (c.getD "") s.weeks) := by
  have frame : (PUT today gen tm true stored w).stored
        = (PUT today gen tm false stored w).stored
      ∧ (PUT today gen tm true stored w).response
        = (PUT today gen tm false stored w).response
      ∧ (PUT today gen tm true stored w).emails.map Prod.fst
        = (PUT today gen tm false stored w).emails.map Prod.fst := by
    cases stored with
    | none => exact ⟨rfl, rfl, rfl⟩
    | some s0 =>
      simp only [PUT]
      split
      · exact ⟨rfl, rfl, rfl⟩
      · cases hg : gen (promptInputsOf today (putMidState s0 w) w) with
        | aborted => exact ⟨rfl, rfl, rfl⟩
        | failed m => exact ⟨rfl, rfl, rfl⟩
        | ok c2 =>
          refine ⟨rfl, rfl, ?_⟩
          by_cases hc : ((if (w : Int) = (putMidState s0 w).totalWeeks then
              Status.completed else Status.in_progress) = Status.completed) <;>
            simp [hc]
  refine ⟨frame.1, frame.2.1, frame.2.2, by rw [frame.1], ?_⟩
  rintro rfl hgen hdate hfin eok
  rw [PUT_ok_eq today gen tm eok s w c hgen hdate]
  exact ⟨_, rfl, by simp [hfin], rfl⟩

/-- Witness for C8: the one-week request completes with the email send
failing, and the stored state is completed all the same. -/
theorem email_failure_frame_witness :
    ((PUT 0 (genSay "W1") true true (some exInit1) 1).stored
        = (PUT 0 (genSay "W1") true false (some exInit1) 1).stored)
    ∧ ((PUT 0 (genSay "W1") true true (some exInit1) 1).response
        = (PUT 0 (genSay "W1") true false (some exInit1) 1).response)
    ∧ ((PUT 0 (genSay "W1") true true (some exInit1) 1).emails.map Prod.fst
        = (PUT 0 (genSay "W1") true false (some exInit1) 1).emails.map Prod.fst)
    ∧ ((GET ((PUT 0 (genSay "W1") true false (some exInit1) 1).stored)).2
        = (GET ((PUT 0 (genSay "W1") true true (some exInit1) 1).stored)).2)
    ∧ (∃ s2, (PUT 0 (genSay "W1") true false (some exInit1) 1).stored = some s2
        ∧ s2.status = .completed
        ∧ s2.weeks = weeksSet 1 ((some "W1").getD "") exInit1.weeks) :=
  have h := email_failure_frame 0 true (some exInit1) exInit1 1 (some "W1") (genSay "W1")
  ⟨h.1, h.2.1, h.2.2.1, h.2.2.2.1,
   h.2.2.2.2 rfl rfl (by decide) (by decide) false⟩

/-- C9: the backend call is bounded by the 25-second abort controller
(`generationTimeoutMs`); an aborted call is answered with the dedicated 408
request-timeout response, distinct from the generic 500 failure response. -/
theorem generation_timeout_distinct_code
    (today : Int) (tm eok : Bool) (s : PlanState) (w : Nat) (msg : String)
    (gen gen2 : PromptInputs → GenResult)
    (habort : gen (promptInputsOf today (putMidState s w) w) = .aborted)
    (hfail : gen2 (promptInputsOf today (putMidState s w) w) = .failed msg)
    (hdate : chunkStart today w ≤ s.raceDate) :
    (PUT today gen tm eok (some s) w).response
      = .timeout408 "Generation timeout - please try again"
    ∧ putStatusCode (PUT today gen tm eok (some s) w).response = 408
    ∧ putStatusCode (PUT today gen2 tm eok (some s) w).response = 500
    ∧ putStatusCode (PUT today gen tm eok (some s) w).response
        ≠ putStatusCode (PUT today gen2 tm eok (some s) w).response
    ∧ generationTimeoutMs = 25000 := by
  have h1 : (PUT today gen tm eok (some s) w).response
      = .timeout408 "Generation timeout - please try again" := by
    simp only [PUT, putMidState_raceDate, if_neg (not_lt.mpr hdate), habort]
  have h2 : (PUT today gen2 tm eok (some s) w).response = .err500 msg := by
    simp only [PUT, putMidState_raceDate, if_neg (not_lt.mpr hdate), hfail]
  rw [h1, h2]
  exact ⟨rfl, rfl, rfl, by simp [putStatusCode], rfl⟩

/-- Witness for C9: an aborted and a failed generation on the part-way
request. -/
theorem generation_timeout_distinct_code_witness :
    (PUT 0 genAbort true true (some exAfterWeek1) 2).response
      = .timeout408 "Generation timeout - please try again"
    ∧ putStatusCode (PUT 0 genAbort true true (some exAfterWeek1) 2).response = 408
    ∧ putStatusCode (PUT 0 (genFail "backend down") true true
        (some exAfterWeek1) 2).response = 500
    ∧ putStatusCode (PUT 0 genAbort true true (some exAfterWeek1) 2).response
        ≠ putStatusCode (PUT 0 (genFail "backend down") true true
            (some exAfterWeek1) 2).response
    ∧ generationTimeoutMs = 25000 :=
  generation_timeout_distinct_code 0 true true exAfterWeek1 2 "backend down"
    genAbort (genFail "backend down") rfl rfl (by decide)

/-- C10: two stored states that differ only in the email field produce
identical GET responses and identical PUT response bodies — the prompt
inputs and both response projections never draw on the stored email, so the
read interface cannot expose the destination address. -/
theorem email_not_exposed
    (today : Int) (tm eok : Bool) (s : PlanState) (w : Nat) (e1 e2 : String)
    (gen : PromptInputs → GenResult) :
    (GET (some { s with email := e1 })).2 = (GET (some { s with email := e2 })).2
    ∧ (PUT today gen tm eok (some { s with email := e1 }) w).response
        = (PUT today gen tm eok (some { s with email := e2 }) w).response := by
  constructor
  · rfl
  · simp only [PUT]
    have hpi1 : promptInputsOf today (putMidState { s with email := e1 } w) w
        = promptInputsOf today (putMidState s w) w := rfl
    have hpi2 : promptInputsOf today (putMidState { s with email := e2 } w) w
        = promptInputsOf today (putMidState s w) w := rfl
    have hrd1 : (putMidState { s with email := e1 } w).raceDate = s.raceDate := rfl
    have hrd2 : (putMidState { s with email := e2 } w).raceDate = s.raceDate := rfl
    rw [hpi1, hpi2, hrd1, hrd2]
    split
    · rfl
    · split <;> rfl

end MarathonPlan
